import Mathlib

/-!
# Verification of the c3 template/dotfiles materialization engine

A shallow embedding of the core of the `c3` command-line dotfiles/template
manager (Python), covering:

* `src/models/dotfile_link.py`  (`DotfileLink` and its status methods),
* `src/models/project_file.py`  (`ProjectFile`, checksum verification),
* `src/models/template.py`      (`Template` and its validators),
* `src/lib/dotfiles.py`         (`DotfilesManager`),
* `src/lib/templates.py`        (`TemplatesManager`),
* `src/cli/status_command.py`   (the per-link status classification loop),
* `src/lib/git_ops.py`          (`_create_template_from_directory`).

Modelling conventions:

* An absolute filesystem path is a list of path components (`Path`).
* The filesystem is a finite association list from paths to nodes
  (regular file with its byte content as a `String`, directory, or
  symbolic link storing its destination path), together with a set `ro`
  of paths on which any write/creation raises `PermissionError`/`OSError`.
  Read errors other than "missing" / "is a directory" are not modelled.
* `Path.exists()` / `is_file()` / `is_dir()` follow chains of symlinks
  (bounded by `symlinkFuel`, mirroring the OS's ELOOP bound);
  `is_symlink()` and the implicit `lstat` of `symlink_to` do not.
  Symlinks are resolved at the final component only: a symlink that
  appears as an intermediate directory component of another stored path
  is not followed (stored paths are treated as canonical keys).
* `mkdir(parents=True, exist_ok=True)` is modelled atomically: on failure
  no partially created directories are recorded.
* File permission bits and modification times are not modelled;
  `st_size` is modelled as the content length and `st_mode` as `0`.
* SHA-256 is modelled as an abstract digest function `H : String → String`
  passed explicitly to every operation that hashes content; theorems that
  need collision-freeness assume `Function.Injective H`.
* `datetime.now()` values are passed in explicitly as a `Nat` parameter.
* A Python function that raises an exception which escapes to the caller
  is embedded with `Except (String × FS)`, the error carrying the message
  and the filesystem state at raise time; an internal caught exception
  becomes an `Option`/`Bool` result, as in the source's `try/except`.
-/

/-- A filesystem path, as its list of components from the root. -/
abbrev FPath := List String

/-- A filesystem node: a regular file with content, a directory, or a
symbolic link storing its destination path. -/
inductive FSNode where
  | file (content : String)
  | dir
  | symlink (dest : FPath)
deriving DecidableEq, Repr

/-- Filesystem state: an association list from paths to nodes plus the set
`ro` of paths on which writes fail with `PermissionError`/`OSError`. -/
structure FS where
  entries : List (FPath × FSNode)
  ro : List FPath := []
deriving DecidableEq, Repr

/-- Node stored at `p`, if any (the `lstat` view: symlinks not followed). -/
def lookupFS (fs : FS) (p : FPath) : Option FSNode :=
  (fs.entries.find? (fun e => e.1 == p)).map (·.2)

/-- `os.path.lexists`: some node is stored at `p` (symlinks not followed). -/
def lexists (fs : FS) (p : FPath) : Bool :=
  (lookupFS fs p).isSome

/-- Store node `n` at path `p`, replacing any previous node there. -/
def setFS (fs : FS) (p : FPath) (n : FSNode) : FS :=
  { fs with entries := (p, n) :: fs.entries.filter (fun e => !(e.1 == p)) }

/-- Remove the node stored at `p` (`Path.unlink`; no-op if absent). -/
def removeFS (fs : FS) (p : FPath) : FS :=
  { fs with entries := fs.entries.filter (fun e => !(e.1 == p)) }

/-- Remove `p` and everything below it (`shutil.rmtree`). -/
def removeTreeFS (fs : FS) (p : FPath) : FS :=
  { fs with entries := fs.entries.filter (fun e => !(p.isPrefixOf e.1)) }

/-- Bound on symlink-chain length, as the OS bounds symlink loops (ELOOP). -/
def symlinkFuel : Nat := 40

/-- Follow the chain of symlinks starting at `p` (non-strict resolution, as
`Path.resolve()`): stops at the first path holding no symlink, returns
`none` when the chain exceeds the fuel (the OS raises `ELOOP`). -/
def resolveFS (fs : FS) : Nat → FPath → Option FPath
  | 0, _ => none
  | fuel + 1, p =>
    match lookupFS fs p with
    | some (.symlink d) => resolveFS fs fuel d
    | _ => some p

/-- `Path.resolve()` with the standard fuel. -/
def resolveP (fs : FS) (p : FPath) : Option FPath :=
  resolveFS fs symlinkFuel p

/-- The node reached after following symlinks from `p`: `none` when the
chain dangles (no node at the resolved path) or loops. -/
def resolvedNode (fs : FS) (p : FPath) : Option FSNode :=
  (resolveP fs p).bind (lookupFS fs)

/-- `Path.exists()`: follows symlinks; true iff resolution reaches a stored
file or directory. -/
def existsP (fs : FS) (p : FPath) : Bool :=
  match resolvedNode fs p with
  | some (.file _) => true
  | some .dir => true
  | _ => false

/-- `Path.is_symlink()`: a symlink node is stored at `p` itself. -/
def isSymlinkP (fs : FS) (p : FPath) : Bool :=
  match lookupFS fs p with
  | some (.symlink _) => true
  | _ => false

/-- `Path.is_file()`: follows symlinks to a regular file. -/
def isFileP (fs : FS) (p : FPath) : Bool :=
  match resolvedNode fs p with
  | some (.file _) => true
  | _ => false

/-- `Path.is_dir()`: follows symlinks to a directory. -/
def isDirP (fs : FS) (p : FPath) : Bool :=
  match resolvedNode fs p with
  | some .dir => true
  | _ => false

/-- `open(p, "rb").read()`: the content of the regular file `p` resolves to,
`none` when `p` is missing, a directory, or a symlink loop. -/
def readFile (fs : FS) (p : FPath) : Option String :=
  match resolvedNode fs p with
  | some (.file c) => some c
  | _ => none

/-- The parent directory of a path (`Path.parent`). -/
def parentOf (p : FPath) : FPath := p.dropLast

/-- The nonempty ancestors of `p`, shortest first, ending with `p` itself. -/
def ancestorsOf (p : FPath) : List FPath :=
  (List.range p.length).map (fun i => p.take (i + 1))

/-- One step of `mkdir(exist_ok=True)` at path `q`: an existing directory
(or a symlink resolving to one) is accepted; an existing file fails
(`FileExistsError`); creation at a read-only path fails. -/
def mkdir1 (fs : FS) (q : FPath) : Option FS :=
  match lookupFS fs q with
  | some .dir => some fs
  | some (.symlink _) => if isDirP fs q then some fs else none
  | some (.file _) => none
  | none => if q ∈ fs.ro then none else some (setFS fs q .dir)

/-- `Path.mkdir(parents=True, exist_ok=True)`: create every missing
ancestor of `p` and `p` itself (modelled atomically: `none` on failure). -/
def mkdirParents (fs : FS) (p : FPath) : Option FS :=
  (ancestorsOf p).foldlM mkdir1 fs

/-- Every ancestor of `p` (including `p`) is already a stored directory;
under this condition `mkdirParents` is the identity. -/
def allDirAncestors (fs : FS) (p : FPath) : Bool :=
  (ancestorsOf p).all (fun q =>
    match lookupFS fs q with
    | some .dir => true
    | _ => false)

/-- `Path.unlink()`: fails on a read-only path. -/
def unlinkFS (fs : FS) (p : FPath) : Option FS :=
  if p ∈ fs.ro then none else some (removeFS fs p)

/-- `shutil.rmtree(p)`: fails on a read-only path. -/
def rmtreeFS (fs : FS) (p : FPath) : Option FS :=
  if p ∈ fs.ro then none else some (removeTreeFS fs p)

/-! ## Data model: Template (src/models/template.py) -/

/-- `TemplateType` (src/models/template.py): dotfiles vs project scope. -/
inductive TemplateType where
  | dotfiles
  | project
deriving DecidableEq, Repr

/-- `Template` (src/models/template.py). Template files are stored as
relative paths (component lists). `metadata` and `discovered_at` carry no
behavior relevant here and are kept as an association list / timestamp. -/
structure Template where
  name : String
  description : String
  type : TemplateType
  files : List FPath
  install_script : Option FPath := none
  metadata : List (String × String) := []
  discovered_at : Option Nat := none
  template_path : Option FPath := none
deriving DecidableEq, Repr

/-- `Template.is_dotfiles_template`. -/
def Template.is_dotfiles_template (t : Template) : Bool :=
  t.type == TemplateType.dotfiles

/-- `Template.is_project_template`. -/
def Template.is_project_template (t : Template) : Bool :=
  t.type == TemplateType.project

/-- Python `str.isalnum` on a single character, modelled for code points
below U+0100 (ASCII plus Latin-1): decimal digits, ASCII letters, and the
Latin-1 alphanumerics `ª ² ³ µ ¹ º ¼ ½ ¾` and the letters U+00C0–U+00FF
except `×` (U+00D7) and `÷` (U+00F7). Code points at U+0100 and above are
outside the model and mapped to `false`. -/
def pyIsAlnumChar (c : Char) : Bool :=
  c.isAlphanum ||
    (c.val == 0xAA || c.val == 0xB2 || c.val == 0xB3 || c.val == 0xB5 ||
     c.val == 0xB9 || c.val == 0xBA || c.val == 0xBC || c.val == 0xBD ||
     c.val == 0xBE ||
     (0xC0 ≤ c.val && c.val ≤ 0xFF && !(c.val == 0xD7) && !(c.val == 0xF7)))

/-- `v.replace("-", "").replace("_", "").replace(".", "")` from
`Template.validate_name`, as the remaining character list. -/
def stripSpecials (s : String) : List Char :=
  s.toList.filter (fun c => !(c == '-' || c == '_' || c == '.'))

/-- Python `str.isalnum`: nonempty and every character alphanumeric. -/
def pyIsAlnumStr (l : List Char) : Bool :=
  !l.isEmpty && l.all pyIsAlnumChar

/-- `Template.validate_name` (src/models/template.py lines 56-66): the name
with `-`, `_`, `.` removed must satisfy `str.isalnum`, and the name may not
start or end with a dot. Returns whether the validator accepts. -/
def validate_name (s : String) : Bool :=
  pyIsAlnumStr (stripSpecials s) && !(s.startsWith ".") && !(s.endsWith ".")

/-- `Template.validate_files`: at least one file, each path nonempty
(absolute paths are unrepresentable in the relative component-list
encoding, so that clause of the validator is vacuous here). -/
def validate_files (files : List FPath) : Bool :=
  !files.isEmpty && files.all (fun f => !f.isEmpty)

/-- Pydantic construction of a `Template`: `Field` constraints
(`min_length=1` on `name` and `description`, `min_length=1` on `files`)
plus the field validators; `none` models a raised `ValidationError`. -/
def Template.construct (name description : String) (ty : TemplateType)
    (files : List FPath) (install_script : Option FPath)
    (metadata : List (String × String)) (discovered_at : Option Nat)
    (template_path : Option FPath) : Option Template :=
  if name.length ≥ 1 && validate_name name &&
     description.length ≥ 1 && validate_files files then
    some ⟨name, description, ty, files, install_script, metadata,
          discovered_at, template_path⟩
  else
    none

/-- The spec's naming rule, following its words: the name must match
`[A-Za-z0-9._-]+` (ASCII only) and may not start or end with a dot.
This is the spec-side definition to be compared with `validate_name`. -/
def specNameOK (s : String) : Bool :=
  !s.isEmpty &&
    s.toList.all (fun c => c.isAlphanum || c == '.' || c == '_' || c == '-') &&
    !(s.startsWith ".") && !(s.endsWith ".")

/-- `GitOperations._create_template_from_directory`
(src/lib/git_ops.py lines 293-355): given the directory name and the
relative paths of the regular files found under it, a file named
`install.sh` becomes the install script, `metadata.toml` is excluded, every
other file goes to `files` in traversal order; an empty `files` list or a
`ValidationError` yields `none` (the directory is discarded). Metadata
parsing is modelled as the already-extracted optional description. -/
def create_template_from_directory (dirName : String)
    (foundFiles : List FPath) (ty : TemplateType)
    (metaDescription : Option String) (now : Nat) (dirPath : FPath) :
    Option Template :=
  let files := foundFiles.filter (fun f =>
    !(f.getLastD "" == "install.sh") && !(f.getLastD "" == "metadata.toml"))
  let installScript := foundFiles.find? (fun f => f.getLastD "" == "install.sh")
  if files.isEmpty then
    none
  else
    Template.construct dirName
      (metaDescription.getD ("Template " ++ dirName)) ty files installScript
      [] (some now) (some dirPath)

/-! ## Data model: DotfileLink (src/models/dotfile_link.py) -/

/-- `DotfileLink` (src/models/dotfile_link.py). The `source`/`target`
validator only resolves `str` inputs; the managers always pass `Path`
objects, so paths are stored as given. -/
structure DotfileLink where
  source : FPath
  target : FPath
  template_name : String
  created_at : Nat
  is_valid : Bool := true
  last_verified : Option Nat := none
deriving DecidableEq, Repr

/-- `DotfileLink.exists`: `target.exists() or target.is_symlink()`. -/
def DotfileLink.existsL (fs : FS) (l : DotfileLink) : Bool :=
  existsP fs l.target || isSymlinkP fs l.target

/-- `DotfileLink.is_symlink`. -/
def DotfileLink.is_symlink (fs : FS) (l : DotfileLink) : Bool :=
  isSymlinkP fs l.target

/-- `DotfileLink.is_broken`: a symlink whose resolution does not exist. -/
def DotfileLink.is_broken (fs : FS) (l : DotfileLink) : Bool :=
  isSymlinkP fs l.target && !existsP fs l.target

/-- `DotfileLink.points_to_source`: the target is a symlink and
`target.resolve() == source.resolve()`; an `OSError`/`RuntimeError`
during resolution (symlink loop) yields `false`. -/
def DotfileLink.points_to_source (fs : FS) (l : DotfileLink) : Bool :=
  if !(l.is_symlink fs) then
    false
  else
    match resolveP fs l.target, resolveP fs l.source with
    | some a, some b => a == b
    | _, _ => false

/-- `DotfileLink.get_status` (src/models/dotfile_link.py lines 102-116). -/
def DotfileLink.get_status (fs : FS) (l : DotfileLink) : String :=
  if !(l.existsL fs) then "missing"
  else if !(l.is_symlink fs) then "file_exists_not_link"
  else if l.is_broken fs then "broken_link"
  else if !(l.points_to_source fs) then "wrong_target"
  else "valid"

/-- `DotfileLink.can_create_symlink` (src/models/dotfile_link.py lines
125-145). Returns the `(success, reason)` pair together with the
filesystem, since the parent-directory creation is a side effect. -/
def DotfileLink.can_create_symlink (fs : FS) (l : DotfileLink) :
    (Bool × String) × FS :=
  if l.existsL fs && !(l.is_symlink fs) then
    ((false, "Target file exists and is not a symlink"), fs)
  else if !existsP fs l.source then
    ((false, "Source file does not exist"), fs)
  else
    let parent := parentOf l.target
    match (if existsP fs parent then some fs else mkdirParents fs parent) with
    | none => ((false, "Cannot create parent directory"), fs)
    | some fs1 =>
      if parent ∈ fs1.ro then
        ((false, "No write permission to target directory"), fs1)
      else
        ((true, "OK"), fs1)

/-- Pydantic `BaseModel.__eq__` on `DotfileLink`: field-by-field equality
over all model fields (no custom `__eq__` is defined in the source). -/
def dotfileLinkEq (a b : DotfileLink) : Bool :=
  a.source == b.source && a.target == b.target &&
  a.template_name == b.template_name && a.created_at == b.created_at &&
  a.is_valid == b.is_valid && a.last_verified == b.last_verified

/-! ## DotfilesManager (src/lib/dotfiles.py) -/

/-- `DotfilesManager._create_single_symlink` (src/lib/dotfiles.py lines
82-119): pre-check, force removal (only when `target.exists()`, which
follows symlinks), parent creation, then `target.symlink_to(source)`
(which raises `FileExistsError` when anything — including a broken
symlink — is stored at the target). Returns the success flag and the
filesystem after the attempt. -/
def create_single_symlink (fs : FS) (l : DotfileLink) (force : Bool) :
    Bool × FS :=
  let res := l.can_create_symlink fs
  let can := res.1.1
  let fs1 := res.2
  if !can && !force then
    (false, fs1)
  else
    let removed : Option FS :=
      if force && existsP fs1 l.target then
        if isSymlinkP fs1 l.target then unlinkFS fs1 l.target
        else if isFileP fs1 l.target then unlinkFS fs1 l.target
        else if isDirP fs1 l.target then rmtreeFS fs1 l.target
        else some fs1
      else some fs1
    match removed with
    | none => (false, fs1)
    | some fs2 =>
      match mkdirParents fs2 (parentOf l.target) with
      | none => (false, fs2)
      | some fs3 =>
        if lexists fs3 l.target then (false, fs3)
        else if l.target ∈ fs3.ro then (false, fs3)
        else (true, setFS fs3 l.target (.symlink l.source))

/-- The planning loop of `DotfilesManager.install_template` (lines 54-63):
one planned link per template file whose source exists. -/
def planLinks (fs : FS) (templatePath home : FPath) (files : List FPath)
    (templateName : String) (now : Nat) : List DotfileLink :=
  files.filterMap (fun f =>
    if existsP fs (templatePath ++ f) then
      some ⟨templatePath ++ f, home ++ f, templateName, now, true, none⟩
    else
      none)

/-- The creation loop of `install_template` (lines 72-77): each failure
clears the overall flag and the loop continues; only created links are
collected. -/
def linkLoop (force : Bool) : FS → List DotfileLink → Bool × List DotfileLink × FS
  | fs, [] => (true, [], fs)
  | fs, l :: rest =>
    match create_single_symlink fs l force with
    | (true, fs1) =>
      let r := linkLoop force fs1 rest
      (r.1, l :: r.2.1, r.2.2)
    | (false, fs1) =>
      let r := linkLoop force fs1 rest
      (false, r.2.1, r.2.2)

/-- `DotfilesManager.install_template` (src/lib/dotfiles.py lines 29-80).
`repo` is the repository path, `home` the user home directory. -/
def install_template (fs : FS) (t : Template) (repo home : FPath)
    (force dry_run : Bool) (now : Nat) :
    Except (String × FS) (Bool × List DotfileLink × FS) :=
  if !t.is_dotfiles_template then
    .error ("Template " ++ t.name ++ " is not a dotfiles template", fs)
  else
    let templatePath := repo ++ ["dotfiles", t.name]
    if !existsP fs templatePath then
      .error ("Template directory not found", fs)
    else
      let links := planLinks fs templatePath home t.files t.name now
      if dry_run then
        .ok (true, links, fs)
      else
        let r := linkLoop force fs links
        .ok (r.1, r.2.1, r.2.2)

/-- The per-link classification of the status command
(src/cli/status_command.py lines 80-103): produces exactly the strings
`ok`, `wrong_target`, `not_symlink`, `missing`. The code compares
`target.resolve()` with `link.source`; under the `target.exists()` guard
that resolution always succeeds, so comparing at `Option` makes no
difference. -/
def classify_link (fs : FS) (l : DotfileLink) : String :=
  if existsP fs l.target then
    if isSymlinkP fs l.target then
      if resolveP fs l.target == some l.source then "ok" else "wrong_target"
    else
      "not_symlink"
  else
    "missing"

/-! ## ProjectFile (src/models/project_file.py) -/

/-- `ProjectFile` (src/models/project_file.py). The checksum is the digest
of the source content at copy time. -/
structure ProjectFile where
  source : FPath
  target : FPath
  template_name : String
  copied_at : Nat
  checksum : String
  file_size : Option Nat := none
  file_mode : Option Nat := none
deriving DecidableEq, Repr

/-- `ProjectFile.calculate_checksum`: digest of the file's content; `none`
models the raised `RuntimeError` when the file cannot be read. -/
def calculate_checksum (H : String → String) (fs : FS) (p : FPath) :
    Option String :=
  (readFile fs p).map H

/-- `ProjectFile.create_from_copy` (src/models/project_file.py lines
64-82): requires the source to exist and to be readable; records the
source's checksum and size. `none` models a raised exception. -/
def ProjectFile.create_from_copy (H : String → String) (fs : FS)
    (source target : FPath) (templateName : String) (now : Nat) :
    Option ProjectFile :=
  if !existsP fs source then
    none
  else
    match readFile fs source with
    | none => none
    | some c =>
      some ⟨source, target, templateName, now, H c, some c.length, some 0⟩

/-- `ProjectFile.exists`. -/
def ProjectFile.existsF (fs : FS) (pf : ProjectFile) : Bool :=
  existsP fs pf.target

/-- `ProjectFile.verify_integrity` (src/models/project_file.py lines
100-109): false when the target is missing; otherwise recompute the
target's digest and compare with the stored checksum (a read failure,
e.g. the target being a directory, also yields false). -/
def ProjectFile.verify_integrity (H : String → String) (fs : FS)
    (pf : ProjectFile) : Bool :=
  if !(pf.existsF fs) then
    false
  else
    match calculate_checksum H fs pf.target with
    | some c => c == pf.checksum
    | none => false

/-! ## TemplatesManager (src/lib/templates.py) -/

/-- `shutil.copy2(source, target)`: resolves the target (writes go through
symlinks); when the resolved target is an existing directory the file is
copied *into* it under the source's basename; an existing directory at the
final write path, a resolution loop, `SameFileError` (source and target
resolve to the same file), an unreadable source, or a read-only write path
all fail. Returns the new filesystem on success. -/
def copy2 (fs : FS) (source target : FPath) : Option FS :=
  match readFile fs source with
  | none => none
  | some c =>
    match resolveP fs target with
    | none => none
    | some rt =>
      let wt := if lookupFS fs rt == some FSNode.dir
                then rt ++ [source.getLastD ""] else rt
      match resolveP fs wt with
      | none => none
      | some rwt =>
        if lookupFS fs rwt == some FSNode.dir then none
        else if resolveP fs source == some rwt then none
        else if rwt ∈ fs.ro then none
        else some (setFS fs rwt (.file c))

/-- `TemplatesManager._copy_single_file` (src/lib/templates.py lines
91-128): conflict check (`target.exists() and not force`), parent
creation, `shutil.copy2`, then `ProjectFile.create_from_copy`; every
exception is caught and yields `none`, with any mutations already
performed kept. -/
def copy_single_file (H : String → String) (fs : FS)
    (source target : FPath) (templateName : String) (force : Bool)
    (now : Nat) : Option ProjectFile × FS :=
  if existsP fs target && !force then
    (none, fs)
  else
    match mkdirParents fs (parentOf target) with
    | none => (none, fs)
    | some fs1 =>
      match copy2 fs1 source target with
      | none => (none, fs1)
      | some fs2 =>
        match ProjectFile.create_from_copy H fs2 source target templateName now with
        | some pf => (some pf, fs2)
        | none => (none, fs2)

/-- The planning loop of `apply_template` (lines 59-67) and of
`install_template`'s project counterpart: the `(source, target)` pairs of
template files whose source exists. -/
def files_to_copy (fs : FS) (templatePath targetDir : FPath)
    (files : List FPath) : List (FPath × FPath) :=
  files.filterMap (fun f =>
    if existsP fs (templatePath ++ f) then
      some (templatePath ++ f, targetDir ++ f)
    else
      none)

/-- The copy loop of `apply_template` (lines 80-87): a failed copy clears
the overall flag and the loop continues with the remaining files. -/
def copyLoop (H : String → String) (templateName : String)
    (force : Bool) (now : Nat) :
    FS → List (FPath × FPath) → Bool × List ProjectFile × FS
  | fs, [] => (true, [], fs)
  | fs, (s, tg) :: rest =>
    match copy_single_file H fs s tg templateName force now with
    | (some pf, fs1) =>
      let r := copyLoop H templateName force now fs1 rest
      (r.1, pf :: r.2.1, r.2.2)
    | (none, fs1) =>
      let r := copyLoop H templateName force now fs1 rest
      (false, r.2.1, r.2.2)

/-- The dry-run record loop of `apply_template` (lines 73-77): one
`ProjectFile` per planned pair whose source exists; an exception from
`create_from_copy` propagates (is not caught). -/
def dryRunRecords (H : String → String) (fs : FS) (templateName : String)
    (now : Nat) : List (FPath × FPath) → Except String (List ProjectFile)
  | [] => .ok []
  | (s, tg) :: rest =>
    if existsP fs s then
      match ProjectFile.create_from_copy H fs s tg templateName now with
      | some pf => (dryRunRecords H fs templateName now rest).map (pf :: ·)
      | none => .error "RuntimeError: failed to calculate checksum"
    else
      dryRunRecords H fs templateName now rest

/-- `TemplatesManager.apply_template` (src/lib/templates.py lines 24-89). -/
def apply_template (H : String → String) (fs : FS) (t : Template)
    (repo targetDir : FPath) (force dry_run : Bool) (now : Nat) :
    Except (String × FS) (Bool × List ProjectFile × FS) :=
  if !t.is_project_template then
    .error ("Template " ++ t.name ++ " is not a project template", fs)
  else
    let templatePath := repo ++ ["projects", t.name]
    if !existsP fs templatePath then
      .error ("Template directory not found", fs)
    else
      match (if dry_run then some fs else mkdirParents fs targetDir) with
      | none => .error ("OSError: cannot create target directory", fs)
      | some fs0 =>
        let plan := files_to_copy fs0 templatePath targetDir t.files
        if dry_run then
          match dryRunRecords H fs0 t.name now plan with
          | .ok recs => .ok (true, recs, fs0)
          | .error e => .error (e, fs0)
        else
          let r := copyLoop H t.name force now fs0 plan
          .ok (r.1, r.2.1, r.2.2)

/-- `TemplatesManager.check_file_conflicts` (src/lib/templates.py lines
192-225): empty for non-project templates and for a missing template
directory; otherwise the `(source, target)` pairs from `template.files`
where both source and target exist. -/
def check_file_conflicts (fs : FS) (t : Template) (repo targetDir : FPath) :
    List (FPath × FPath) :=
  if !t.is_project_template then
    []
  else
    let templatePath := repo ++ ["projects", t.name]
    if !existsP fs templatePath then
      []
    else
      t.files.filterMap (fun f =>
        if existsP fs (templatePath ++ f) && existsP fs (targetDir ++ f) then
          some (templatePath ++ f, targetDir ++ f)
        else
          none)

/-! ## Basic lemmas about the filesystem model -/

theorem find?_filter_of_imp {α : Type} (l : List α) (p keep : α → Bool)
    (h : ∀ a, p a = true → keep a = true) :
    (l.filter keep).find? p = l.find? p := by
  induction l with
  | nil => rfl
  | cons a t ih =>
    by_cases hp : p a = true
    · have hk := h a hp
      simp [List.filter_cons, hk, List.find?_cons, hp]
    · by_cases hk : keep a = true <;>
        simp [List.filter_cons, hk, List.find?_cons, hp, ih]

theorem find?_filter_none {α : Type} (l : List α) (p keep : α → Bool)
    (h : ∀ a, p a = true → keep a = false) :
    (l.filter keep).find? p = none := by
  induction l with
  | nil => rfl
  | cons a t ih =>
    by_cases hp : p a = true
    · have hk := h a hp
      simp [List.filter_cons, hk, ih]
    · by_cases hk : keep a = true <;>
        simp [List.filter_cons, hk, List.find?_cons, hp, ih]

theorem lookupFS_set_self (fs : FS) (p : FPath) (n : FSNode) :
    lookupFS (setFS fs p n) p = some n := by
  simp [lookupFS, setFS, List.find?_cons]

theorem lookupFS_set_ne (fs : FS) (p q : FPath) (n : FSNode) (h : q ≠ p) :
    lookupFS (setFS fs p n) q = lookupFS fs q := by
  have hhead : ((p, n).1 == q) = false := by simp [Ne.symm h]
  simp only [lookupFS, setFS, List.find?_cons, hhead]
  rw [find?_filter_of_imp]
  intro a ha
  have : a.1 = q := by simpa using ha
  simp [this, h]

theorem lookupFS_remove_self (fs : FS) (p : FPath) :
    lookupFS (removeFS fs p) p = none := by
  simp only [lookupFS, removeFS]
  rw [find?_filter_none]
  · rfl
  · intro a ha
    have : a.1 = p := by simpa using ha
    simp [this]

theorem lookupFS_remove_ne (fs : FS) (p q : FPath) (h : q ≠ p) :
    lookupFS (removeFS fs p) q = lookupFS fs q := by
  simp only [lookupFS, removeFS]
  rw [find?_filter_of_imp]
  intro a ha
  have : a.1 = q := by simpa using ha
  simp [this, h]

theorem lookupFS_removeTree_of_not_pre (fs : FS) (p q : FPath)
    (h : ¬ p <+: q) : lookupFS (removeTreeFS fs p) q = lookupFS fs q := by
  simp only [lookupFS, removeTreeFS]
  rw [find?_filter_of_imp]
  intro a ha
  have ha' : a.1 = q := by simpa using ha
  subst ha'
  cases hpb : List.isPrefixOf p a.1 with
  | true => exact absurd (List.isPrefixOf_iff_prefix.mp hpb) h
  | false => simp [hpb]

theorem lookupFS_removeTree_self (fs : FS) (p : FPath) :
    lookupFS (removeTreeFS fs p) p = none := by
  simp only [lookupFS, removeTreeFS]
  rw [find?_filter_none]
  · rfl
  · intro a ha
    have ha' : a.1 = p := by simpa using ha
    subst ha'
    simp [List.isPrefixOf_iff_prefix]

theorem ro_setFS (fs : FS) (p : FPath) (n : FSNode) :
    (setFS fs p n).ro = fs.ro := rfl

theorem ro_removeFS (fs : FS) (p : FPath) : (removeFS fs p).ro = fs.ro := rfl

theorem ro_removeTreeFS (fs : FS) (p : FPath) :
    (removeTreeFS fs p).ro = fs.ro := rfl

/-- A predicate: no symlink is stored at `q`. -/
def notSymlinkAt (fs : FS) (q : FPath) : Prop :=
  ∀ d, lookupFS fs q ≠ some (.symlink d)

theorem resolveFS_of_not_symlink (fs : FS) (q : FPath)
    (hq : notSymlinkAt fs q) (n : Nat) :
    resolveFS fs (n + 1) q = some q := by
  unfold resolveFS
  cases hl : lookupFS fs q with
  | none => rfl
  | some node =>
    cases node with
    | file c => rfl
    | dir => rfl
    | symlink d => exact absurd hl (hq d)

theorem resolveFS_some_not_symlink (fs : FS) :
    ∀ (n : Nat) (p q : FPath), resolveFS fs n p = some q → notSymlinkAt fs q := by
  intro n
  induction n with
  | zero => intro p q h; simp [resolveFS] at h
  | succ m ih =>
    intro p q h
    unfold resolveFS at h
    cases hl : lookupFS fs p with
    | none =>
      rw [hl] at h
      cases h
      intro d hd
      rw [hd] at hl
      cases hl
    | some node =>
      cases node with
      | file c =>
        rw [hl] at h
        cases h
        intro d hd
        rw [hd] at hl
        cases hl
      | dir =>
        rw [hl] at h
        cases h
        intro d hd
        rw [hd] at hl
        cases hl
      | symlink d =>
        rw [hl] at h
        exact ih d q h

theorem resolveP_of_not_symlink (fs : FS) (q : FPath)
    (hq : notSymlinkAt fs q) : resolveP fs q = some q :=
  resolveFS_of_not_symlink fs q hq 39

theorem resolveP_some_not_symlink (fs : FS) (p q : FPath)
    (h : resolveP fs p = some q) : notSymlinkAt fs q :=
  resolveFS_some_not_symlink fs symlinkFuel p q h

theorem resolveFS_set_file (fs : FS) (q : FPath) (c : String)
    (hq : notSymlinkAt fs q) :
    ∀ (n : Nat) (p r : FPath), resolveFS fs n p = some r →
      resolveFS (setFS fs q (.file c)) n p = some r := by
  intro n
  induction n with
  | zero => intro p r h; simp [resolveFS] at h
  | succ m ih =>
    intro p r h
    unfold resolveFS at h ⊢
    cases hl : lookupFS fs p with
    | none =>
      rw [hl] at h
      cases h
      by_cases hpq : p = q
      · subst hpq
        rw [lookupFS_set_self]
      · rw [lookupFS_set_ne fs q p (.file c) hpq, hl]
    | some node =>
      cases node with
      | file c' =>
        rw [hl] at h
        cases h
        by_cases hpq : p = q
        · subst hpq
          rw [lookupFS_set_self]
        · rw [lookupFS_set_ne fs q p (.file c) hpq, hl]
      | dir =>
        rw [hl] at h
        cases h
        by_cases hpq : p = q
        · subst hpq
          rw [lookupFS_set_self]
        · rw [lookupFS_set_ne fs q p (.file c) hpq, hl]
      | symlink d =>
        rw [hl] at h
        have hpq : p ≠ q := by
          intro he
          subst he
          exact hq d hl
        rw [lookupFS_set_ne fs q p (.file c) hpq, hl]
        exact ih d r h

theorem resolveP_set_file (fs : FS) (q : FPath) (c : String) (p r : FPath)
    (hq : notSymlinkAt fs q) (h : resolveP fs p = some r) :
    resolveP (setFS fs q (.file c)) p = some r :=
  resolveFS_set_file fs q c hq symlinkFuel p r h

theorem readFile_existsP (fs : FS) (p : FPath) (c : String)
    (h : readFile fs p = some c) : existsP fs p = true := by
  unfold readFile at h
  unfold existsP
  cases hn : resolvedNode fs p with
  | none => rw [hn] at h; cases h
  | some node =>
    rw [hn] at h
    cases node with
    | file c' => rfl
    | dir => cases h
    | symlink d => cases h

theorem isFileP_readFile (fs : FS) (p : FPath) (h : isFileP fs p = true) :
    ∃ c, readFile fs p = some c := by
  unfold isFileP at h
  unfold readFile
  cases hn : resolvedNode fs p with
  | none => rw [hn] at h; cases h
  | some node =>
    rw [hn] at h
    cases node with
    | file c' => exact ⟨c', rfl⟩
    | dir => cases h
    | symlink d => cases h

theorem isFileP_existsP (fs : FS) (p : FPath) (h : isFileP fs p = true) :
    existsP fs p = true := by
  obtain ⟨c, hc⟩ := isFileP_readFile fs p h
  exact readFile_existsP fs p c hc

theorem resolvedNode_set_file_target (fs : FS) (p q : FPath) (c : String)
    (h : resolveP fs p = some q) :
    resolvedNode (setFS fs q (.file c)) p = some (.file c) := by
  have hq := resolveP_some_not_symlink fs p q h
  have hres := resolveP_set_file fs q c p q hq h
  unfold resolvedNode
  rw [hres, Option.some_bind, lookupFS_set_self]

theorem readFile_set_file_target (fs : FS) (p q : FPath) (c : String)
    (h : resolveP fs p = some q) :
    readFile (setFS fs q (.file c)) p = some c := by
  unfold readFile
  rw [resolvedNode_set_file_target fs p q c h]

theorem existsP_set_file_target (fs : FS) (p q : FPath) (c : String)
    (h : resolveP fs p = some q) :
    existsP (setFS fs q (.file c)) p = true := by
  unfold existsP
  rw [resolvedNode_set_file_target fs p q c h]

theorem readFile_set_file_other (fs : FS) (p q : FPath) (c c' : String)
    (hq : notSymlinkAt fs q) (h : readFile fs p = some c')
    (hne : resolveP fs p ≠ some q) :
    readFile (setFS fs q (.file c)) p = some c' := by
  unfold readFile resolvedNode at h
  cases hr : resolveP fs p with
  | none => rw [hr] at h; cases h
  | some r =>
    rw [hr, Option.some_bind] at h
    have hrq : r ≠ q := by
      intro he
      subst he
      exact hne hr
    have hres := resolveP_set_file fs q c p r hq hr
    unfold readFile resolvedNode
    rw [hres, Option.some_bind, lookupFS_set_ne fs q r (.file c) hrq]
    exact h

theorem foldlM_mkdir1_all_dir :
    ∀ (L : List FPath) (fs : FS), (∀ q ∈ L, lookupFS fs q = some .dir) →
      L.foldlM mkdir1 fs = some fs := by
  intro L
  induction L with
  | nil => intro fs _; rfl
  | cons q L ih =>
    intro fs h
    have hq : lookupFS fs q = some .dir := h q (by simp)
    have hstep : mkdir1 fs q = some fs := by
      unfold mkdir1
      rw [hq]
    simp only [List.foldlM, hstep, Option.bind_eq_bind, Option.some_bind]
    exact ih fs (fun r hr => h r (by simp [hr]))

theorem mkdirParents_allDir (fs : FS) (p : FPath)
    (h : allDirAncestors fs p = true) : mkdirParents fs p = some fs := by
  apply foldlM_mkdir1_all_dir
  intro q hq
  have := (List.all_eq_true.mp h) q hq
  cases hl : lookupFS fs q with
  | none => rw [hl] at this; cases this
  | some node =>
    rw [hl] at this
    cases node with
    | file c => cases this
    | dir => rfl
    | symlink d => cases this

/-! ## Lemmas about the planning and copy loops -/

theorem filterMap_ite_length {α β : Type} (l : List α) (p : α → Bool)
    (g : α → β) :
    (l.filterMap (fun a => if p a then some (g a) else none)).length =
      (l.filter p).length := by
  induction l with
  | nil => rfl
  | cons a t ih =>
    by_cases hp : p a = true <;>
      simp [List.filterMap_cons, List.filter_cons, hp, ih]

theorem mem_filterMap_ite {α β : Type} (l : List α) (p : α → Bool)
    (g : α → β) (b : β) :
    b ∈ l.filterMap (fun a => if p a then some (g a) else none) ↔
      ∃ a ∈ l, p a = true ∧ b = g a := by
  rw [List.mem_filterMap]
  constructor
  · rintro ⟨a, ha, hb⟩
    by_cases hp : p a = true
    · rw [if_pos hp] at hb
      exact ⟨a, ha, hp, (Option.some_inj.mp hb).symm⟩
    · rw [if_neg hp] at hb
      cases hb
  · rintro ⟨a, ha, hp, hb⟩
    exact ⟨a, ha, by rw [if_pos hp, hb]⟩

theorem copy_single_file_fields (H : String → String) (fs : FS)
    (s tg : FPath) (name : String) (force : Bool) (now : Nat)
    (pf : ProjectFile) (fs' : FS)
    (h : copy_single_file H fs s tg name force now = (some pf, fs')) :
    pf.source = s ∧ pf.target = tg ∧ pf.template_name = name := by
  unfold copy_single_file at h
  split at h
  · cases h
  · split at h
    · cases h
    · split at h
      · cases h
      · rename_i fs2 hcp
        cases hcr : ProjectFile.create_from_copy H fs2 s tg name now with
        | none => rw [hcr] at h; cases h
        | some pf0 =>
          rw [hcr] at h
          cases h
          unfold ProjectFile.create_from_copy at hcr
          split at hcr
          · cases hcr
          · split at hcr
            · cases hcr
            · cases hcr
              exact ⟨rfl, rfl, rfl⟩

theorem copyLoop_length_le (H : String → String) (name : String)
    (force : Bool) (now : Nat) :
    ∀ (pairs : List (FPath × FPath)) (fs : FS),
      (copyLoop H name force now fs pairs).2.1.length ≤ pairs.length := by
  intro pairs
  induction pairs with
  | nil => intro fs; simp [copyLoop]
  | cons pr rest ih =>
    intro fs
    unfold copyLoop
    cases hc : copy_single_file H fs pr.1 pr.2 name force now with
    | mk opf fs1 =>
      cases opf with
      | some pf =>
        simpa using Nat.succ_le_succ (ih fs1)
      | none =>
        simpa using Nat.le_succ_of_le (ih fs1)

theorem copyLoop_success_iff (H : String → String) (name : String)
    (force : Bool) (now : Nat) :
    ∀ (pairs : List (FPath × FPath)) (fs : FS),
      (copyLoop H name force now fs pairs).1 = true ↔
        (copyLoop H name force now fs pairs).2.1.length = pairs.length := by
  intro pairs
  induction pairs with
  | nil => intro fs; simp [copyLoop]
  | cons pr rest ih =>
    intro fs
    unfold copyLoop
    cases hc : copy_single_file H fs pr.1 pr.2 name force now with
    | mk opf fs1 =>
      cases opf with
      | some pf =>
        simpa using ih fs1
      | none =>
        have hle := copyLoop_length_le H name force now rest fs1
        simp only [List.length_cons]
        constructor
        · intro hfalse
          cases hfalse
        · intro hlen
          omega

theorem copyLoop_sources (H : String → String) (name : String)
    (force : Bool) (now : Nat) :
    ∀ (pairs : List (FPath × FPath)) (fs : FS) (r : ProjectFile),
      r ∈ (copyLoop H name force now fs pairs).2.1 →
        r.source ∈ pairs.map Prod.fst := by
  intro pairs
  induction pairs with
  | nil => intro fs r hr; simp [copyLoop] at hr
  | cons pr rest ih =>
    intro fs r hr
    unfold copyLoop at hr
    cases hc : copy_single_file H fs pr.1 pr.2 name force now with
    | mk opf fs1 =>
      rw [hc] at hr
      cases opf with
      | some pf =>
        simp only [List.map_cons, List.mem_cons]
        rcases List.mem_cons.mp hr with hhead | htail
        · left
          rw [hhead]
          exact (copy_single_file_fields H fs pr.1 pr.2 name force now pf fs1 hc).1
        · right
          exact ih fs1 r htail
      | none =>
        simp only [List.map_cons, List.mem_cons]
        right
        exact ih fs1 r hr

theorem dryRunRecords_ok (H : String → String) (fs : FS) (name : String)
    (now : Nat) :
    ∀ (pairs : List (FPath × FPath)),
      (∀ pr ∈ pairs, isFileP fs pr.1 = true) →
      ∃ recs, dryRunRecords H fs name now pairs = .ok recs ∧
        recs.length = pairs.length := by
  intro pairs
  induction pairs with
  | nil => intro _; exact ⟨[], rfl, rfl⟩
  | cons pr rest ih =>
    intro h
    have hf : isFileP fs pr.1 = true := h pr (by simp)
    obtain ⟨c, hc⟩ := isFileP_readFile fs pr.1 hf
    have he : existsP fs pr.1 = true := readFile_existsP fs pr.1 c hc
    obtain ⟨recs, hrec, hlen⟩ := ih (fun q hq => h q (by simp [hq]))
    refine ⟨⟨pr.1, pr.2, name, now, H c, some c.length, some 0⟩ :: recs, ?_, ?_⟩
    · show dryRunRecords H fs name now (pr :: rest) = _
      unfold dryRunRecords
      have hcr : ProjectFile.create_from_copy H fs pr.1 pr.2 name now =
          some ⟨pr.1, pr.2, name, now, H c, some c.length, some 0⟩ := by
        unfold ProjectFile.create_from_copy
        rw [he]
        simp only [Bool.not_true, Bool.false_eq_true, if_false, hc]
      rw [he]
      simp only [if_true, hcr, hrec, Except.map]
    · simp [hlen]

/-- The target path does not resolve to an existing directory (the case in
which `shutil.copy2` would copy *into* the directory). -/
def targetNotDir (fs : FS) (p : FPath) : Bool :=
  match resolveP fs p with
  | some rt => !(lookupFS fs rt == some FSNode.dir)
  | none => true

theorem copy_single_file_verify (H : String → String) (fs : FS)
    (s tg : FPath) (name : String) (force : Bool) (now : Nat)
    (pf : ProjectFile) (fs' : FS)
    (hdirs : allDirAncestors fs (parentOf tg) = true)
    (hnotdir : targetNotDir fs tg = true)
    (h : copy_single_file H fs s tg name force now = (some pf, fs')) :
    pf.verify_integrity H fs' = true := by
  unfold copy_single_file at h
  split at h
  · cases h
  · simp only [mkdirParents_allDir fs (parentOf tg) hdirs] at h
    cases hrd : readFile fs s with
    | none =>
      have hcp : copy2 fs s tg = none := by
        unfold copy2
        simp only [hrd]
      simp only [hcp] at h
      cases h
    | some c =>
      cases hrt : resolveP fs tg with
      | none =>
        have hcp : copy2 fs s tg = none := by
          unfold copy2
          simp only [hrd, hrt]
        simp only [hcp] at h
        cases h
      | some rt =>
        have hnsym := resolveP_some_not_symlink fs tg rt hrt
        have hrr : resolveP fs rt = some rt := resolveP_of_not_symlink fs rt hnsym
        have hnd : (lookupFS fs rt == some FSNode.dir) = false := by
          unfold targetNotDir at hnotdir
          simp only [hrt, Bool.not_eq_true'] at hnotdir
          exact hnotdir
        by_cases hsame : (resolveP fs s == some rt) = true
        · have hcp : copy2 fs s tg = none := by
            unfold copy2
            simp [hrd, hrt, hnd, hrr, hsame]
          simp only [hcp] at h
          cases h
        · by_cases hro : rt ∈ fs.ro
          · have hcp : copy2 fs s tg = none := by
              unfold copy2
              simp [hrd, hrt, hnd, hrr, hsame, hro]
            simp only [hcp] at h
            cases h
          · have hcp : copy2 fs s tg = some (setFS fs rt (.file c)) := by
              unfold copy2
              simp [hrd, hrt, hnd, hrr, hsame, hro]
            simp only [hcp] at h
            have hne : resolveP fs s ≠ some rt := by
              intro he
              rw [he] at hsame
              simp at hsame
            have hrd2 : readFile (setFS fs rt (.file c)) s = some c :=
              readFile_set_file_other fs s rt c c hnsym hrd hne
            have hex2 : existsP (setFS fs rt (.file c)) s = true :=
              readFile_existsP _ s c hrd2
            have hcr : ProjectFile.create_from_copy H (setFS fs rt (.file c))
                s tg name now =
                some ⟨s, tg, name, now, H c, some c.length, some 0⟩ := by
              unfold ProjectFile.create_from_copy
              simp only [hex2, Bool.not_true, Bool.false_eq_true, if_false, hrd2]
            simp only [hcr] at h
            have hpf : pf = ⟨s, tg, name, now, H c, some c.length, some 0⟩ := by
              have := congrArg Prod.fst h
              simpa using this.symm
            have hfs : fs' = setFS fs rt (.file c) := by
              have := congrArg Prod.snd h
              simpa using this.symm
            subst hpf
            subst hfs
            unfold ProjectFile.verify_integrity ProjectFile.existsF
              calculate_checksum
            simp only [existsP_set_file_target fs tg rt c hrt,
              readFile_set_file_target fs tg rt c hrt, Bool.not_true,
              Bool.false_eq_true, if_false, Option.map_some']
            simp

/-! ## Concrete scenarios used by witnesses and counterexamples -/

/-- The identity digest: an injective stand-in for SHA-256 in witnesses. -/
def idDigest : String → String := fun s => s

theorem idDigest_injective : Function.Injective idDigest := fun _ _ h => h

/-- A repository with one dotfiles template `vim` (file `.vimrc`) and one
project template `web` (file `package.json`), an empty home directory and
an empty project target directory. -/
def demoRepoFS : FS := ⟨[
  (["repo"], .dir), (["repo", "dotfiles"], .dir),
  (["repo", "dotfiles", "vim"], .dir),
  (["repo", "dotfiles", "vim", ".vimrc"], .file "set number"),
  (["repo", "projects"], .dir),
  (["repo", "projects", "web"], .dir),
  (["repo", "projects", "web", "package.json"], .file "json"),
  (["home"], .dir), (["proj"], .dir)], []⟩

/-- A dotfiles template whose second declared file has no source on disk. -/
def demoDot : Template :=
  ⟨"vim", "Vim config", .dotfiles, [[".vimrc"], ["missing.txt"]],
   none, [], none, none⟩

/-- A project template whose second declared file has no source on disk. -/
def demoProj : Template :=
  ⟨"web", "Web project", .project, [["package.json"], ["gone.js"]],
   none, [], none, none⟩

/-- `demoRepoFS` with a conflicting `package.json` already in the target. -/
def conflictFS : FS :=
  ⟨demoRepoFS.entries ++ [(["proj", "package.json"], .file "other")], []⟩

/-- `demoRepoFS` with the `vim` template correctly installed in home. -/
def installedFS : FS :=
  ⟨demoRepoFS.entries ++
    [(["home", ".vimrc"], .symlink ["repo", "dotfiles", "vim", ".vimrc"])], []⟩

/-- The expected link record for the installed `vim` template. -/
def demoLink : DotfileLink :=
  ⟨["repo", "dotfiles", "vim", ".vimrc"], ["home", ".vimrc"], "vim", 0,
   true, none⟩

/-! ## C1 — link-status classification -/

/-- C1: for every expected link, the per-link classifier of the status
command (src/cli/status_command.py lines 80-103) returns exactly one of
the four classes `ok`, `wrong_target`, `not_symlink`, `missing`: a
non-existing target is `missing`; an existing non-symlink target is
`not_symlink`; an existing symlink resolving to the source is `ok`; an
existing symlink resolving elsewhere is `wrong_target`. No other class is
produced. -/
theorem C1_link_classifier_exactly_four_classes (fs : FS) (l : DotfileLink) :
    (classify_link fs l = "missing" ∨ classify_link fs l = "not_symlink" ∨
     classify_link fs l = "ok" ∨ classify_link fs l = "wrong_target") ∧
    (existsP fs l.target = false → classify_link fs l = "missing") ∧
    (existsP fs l.target = true → isSymlinkP fs l.target = false →
      classify_link fs l = "not_symlink") ∧
    (existsP fs l.target = true → isSymlinkP fs l.target = true →
      resolveP fs l.target = some l.source → classify_link fs l = "ok") ∧
    (existsP fs l.target = true → isSymlinkP fs l.target = true →
      resolveP fs l.target ≠ some l.source →
      classify_link fs l = "wrong_target") := by
  by_cases he : existsP fs l.target = true <;>
    by_cases hs : isSymlinkP fs l.target = true <;>
      by_cases hr : (resolveP fs l.target == some l.source) = true <;>
        simp_all [classify_link, beq_iff_eq]

/-- Witness for C1 at a correctly installed link. -/
theorem C1_witness : classify_link installedFS demoLink = "ok" :=
  (C1_link_classifier_exactly_four_classes installedFS demoLink).2.2.2.1
    (by decide) (by decide) (by decide)

/-! ## C2 — force-install over pre-existing targets -/

/-- Target is a broken (dangling) symlink. -/
def brokenTargetFS : FS := ⟨[
  (["home"], .dir), (["home", "u"], .dir), (["repo"], .dir),
  (["repo", "f"], .file "x"), (["home", "u", "f"], .symlink ["gone"])], []⟩

/-- Target is a plain file. -/
def fileTargetFS : FS := ⟨[
  (["home"], .dir), (["home", "u"], .dir), (["repo"], .dir),
  (["repo", "f"], .file "x"), (["home", "u", "f"], .file "old")], []⟩

/-- Target is a directory with a child. -/
def dirTargetLinkFS : FS := ⟨[
  (["home"], .dir), (["home", "u"], .dir), (["repo"], .dir),
  (["repo", "f"], .file "x"), (["home", "u", "f"], .dir),
  (["home", "u", "f", "x"], .file "y")], []⟩

/-- Target is a healthy symlink to another file. -/
def symTargetFS : FS := ⟨[
  (["home"], .dir), (["home", "u"], .dir), (["repo"], .dir),
  (["repo", "f"], .file "x"), (["other"], .file "y"),
  (["home", "u", "f"], .symlink ["other"])], []⟩

/-- The link to create in the C2 scenarios. -/
def c2Link : DotfileLink := ⟨["repo", "f"], ["home", "u", "f"], "t", 0, true, none⟩

/-- C2: with `force=true`, `_create_single_symlink` removes a pre-existing
plain file, directory (recursively) or healthy symlink and then succeeds —
but a pre-existing *broken* symlink is not removed (the removal is guarded
by `target.exists()`, which follows symlinks and is false for a dangling
link), so `symlink_to` raises `FileExistsError` and the creation fails,
leaving the stale symlink in place. This contradicts the documented force
semantics ("remove any pre-existing target ... regardless of pre-check
outcome") and the code's own intent to unlink symlink targets under force. -/
theorem C2_force_install_broken_symlink_not_removed :
    create_single_symlink brokenTargetFS c2Link true = (false, brokenTargetFS) ∧
    lookupFS brokenTargetFS c2Link.target = some (.symlink ["gone"]) ∧
    (create_single_symlink fileTargetFS c2Link true).1 = true ∧
    lookupFS (create_single_symlink fileTargetFS c2Link true).2 c2Link.target =
      some (.symlink c2Link.source) ∧
    (create_single_symlink dirTargetLinkFS c2Link true).1 = true ∧
    lookupFS (create_single_symlink dirTargetLinkFS c2Link true).2 c2Link.target =
      some (.symlink c2Link.source) ∧
    lookupFS (create_single_symlink dirTargetLinkFS c2Link true).2
      ["home", "u", "f", "x"] = none ∧
    (create_single_symlink symTargetFS c2Link true).1 = true ∧
    lookupFS (create_single_symlink symTargetFS c2Link true).2 c2Link.target =
      some (.symlink c2Link.source) := by
  decide

/-! ## C9 — equality of DotfileLink records -/

/-- Two links equal on `(source, target)` but differing in provenance. -/
def linkAlpha : DotfileLink := ⟨["s"], ["t"], "alpha", 0, true, none⟩

/-- Same `(source, target)` as `linkAlpha`, different `template_name`. -/
def linkBeta : DotfileLink := ⟨["s"], ["t"], "beta", 0, true, none⟩

/-- C9 counterexample: pydantic `BaseModel.__eq__` compares every field, so
two links with identical `(source, target)` but different `template_name`
are *not* equal, refuting "a equals b iff source and target agree". -/
theorem C9_counterexample_equality_not_by_source_target :
    linkAlpha.source = linkBeta.source ∧ linkAlpha.target = linkBeta.target ∧
    dotfileLinkEq linkAlpha linkBeta = false ∧ linkAlpha ≠ linkBeta := by
  decide

/-- C9 (amended): `DotfileLink` equality is field-by-field over all six
model fields (`source`, `target`, `template_name`, `created_at`,
`is_valid`, `last_verified`) — the default pydantic equality, not equality
by `(source, target)` alone. -/
theorem C9_equality_is_all_fields (a b : DotfileLink) :
    dotfileLinkEq a b = true ↔ a = b := by
  cases a
  cases b
  simp [dotfileLinkEq, DotfileLink.mk.injEq, and_assoc]

/-! ## C10 — conflict check is total on wrong-kind / stale templates -/

/-- C10: `check_file_conflicts` never raises for a wrong-kind or stale
template: a non-project template, or a project template whose directory is
missing, yields the empty list (whereas install/apply raise, cf. C7). -/
theorem C10_check_conflicts_total (fs : FS) (t : Template)
    (repo targetDir : FPath) :
    (t.is_project_template = false →
      check_file_conflicts fs t repo targetDir = []) ∧
    (t.is_project_template = true →
      existsP fs (repo ++ ["projects", t.name]) = false →
      check_file_conflicts fs t repo targetDir = []) := by
  constructor
  · intro h
    simp [check_file_conflicts, h]
  · intro h hex
    simp [check_file_conflicts, h, hex]

/-- Witness for C10: a dotfiles template and a stale project template. -/
theorem C10_witness :
    check_file_conflicts demoRepoFS demoDot ["repo"] ["proj"] = [] ∧
    check_file_conflicts demoRepoFS
      ⟨"ghost", "gone", .project, [["a"]], none, [], none, none⟩
      ["repo"] ["proj"] = [] :=
  ⟨(C10_check_conflicts_total demoRepoFS demoDot ["repo"] ["proj"]).1
      (by decide),
   (C10_check_conflicts_total demoRepoFS
      ⟨"ghost", "gone", .project, [["a"]], none, [], none, none⟩
      ["repo"] ["proj"]).2 (by decide) (by decide)⟩

/-! ## C7 — template-level failures abort immediately -/

/-- C7: `install_template` raises (returning the error with the filesystem
untouched, hence no link created) when the template is not a dotfiles
template or its directory `repo/dotfiles/<name>` is missing; likewise
`apply_template` raises when the template is not a project template or
`repo/projects/<name>` is missing. -/
theorem C7_template_level_failures_raise (H : String → String) (fs : FS)
    (t : Template) (repo home targetDir : FPath) (force dry_run : Bool)
    (now : Nat) :
    (t.is_dotfiles_template = false →
      install_template fs t repo home force dry_run now =
        .error ("Template " ++ t.name ++ " is not a dotfiles template", fs)) ∧
    (t.is_dotfiles_template = true →
      existsP fs (repo ++ ["dotfiles", t.name]) = false →
      install_template fs t repo home force dry_run now =
        .error ("Template directory not found", fs)) ∧
    (t.is_project_template = false →
      apply_template H fs t repo targetDir force dry_run now =
        .error ("Template " ++ t.name ++ " is not a project template", fs)) ∧
    (t.is_project_template = true →
      existsP fs (repo ++ ["projects", t.name]) = false →
      apply_template H fs t repo targetDir force dry_run now =
        .error ("Template directory not found", fs)) := by
  refine ⟨?_, ?_, ?_, ?_⟩
  · intro h
    simp [install_template, h]
  · intro h hex
    simp [install_template, h, hex]
  · intro h
    simp [apply_template, h]
  · intro h hex
    simp [apply_template, h, hex]

/-- Witness for C7: the wrong-kind cases at the demo templates. -/
theorem C7_witness :
    install_template demoRepoFS demoProj ["repo"] ["home"] false false 0 =
      .error ("Template " ++ demoProj.name ++ " is not a dotfiles template",
        demoRepoFS) ∧
    apply_template idDigest demoRepoFS demoDot ["repo"] ["proj"] false false 0 =
      .error ("Template " ++ demoDot.name ++ " is not a project template",
        demoRepoFS) :=
  ⟨(C7_template_level_failures_raise idDigest demoRepoFS demoProj ["repo"]
      ["home"] ["proj"] false false 0).1 (by decide),
   (C7_template_level_failures_raise idDigest demoRepoFS demoDot ["repo"]
      ["home"] ["proj"] false false 0).2.2.1 (by decide)⟩

/-! ## C4 — conflict detection is conservative -/

/-- C4: for a project-kind template, `check_file_conflicts` returns exactly
the `(source, target)` pairs derived from `template.files` whose source and
target both exist (when the template directory exists); every conflict is
among the planned copy pairs, a declared file whose target does not exist
is never a conflict, and a template with no source files on disk yields the
empty list. -/
theorem C4_conflict_detection_conservative (fs : FS) (t : Template)
    (repo targetDir : FPath) (ht : t.type = TemplateType.project) :
    (∀ pr ∈ check_file_conflicts fs t repo targetDir,
      pr ∈ files_to_copy fs (repo ++ ["projects", t.name]) targetDir t.files) ∧
    (∀ pr, pr ∈ check_file_conflicts fs t repo targetDir ↔
      (existsP fs (repo ++ ["projects", t.name]) = true ∧
       ∃ f ∈ t.files,
         pr = (repo ++ ["projects", t.name] ++ f, targetDir ++ f) ∧
         existsP fs (repo ++ ["projects", t.name] ++ f) = true ∧
         existsP fs (targetDir ++ f) = true)) ∧
    ((∀ f ∈ t.files, existsP fs (repo ++ ["projects", t.name] ++ f) = false) →
      check_file_conflicts fs t repo targetDir = []) := by
  have hp : t.is_project_template = true := by
    simp [Template.is_project_template, ht]
  by_cases hex : existsP fs (repo ++ ["projects", t.name]) = true
  · have hcf : check_file_conflicts fs t repo targetDir =
        t.files.filterMap (fun f =>
          if existsP fs (repo ++ ["projects", t.name] ++ f) &&
             existsP fs (targetDir ++ f) then
            some (repo ++ ["projects", t.name] ++ f, targetDir ++ f)
          else none) := by
      simp [check_file_conflicts, hp, hex]
    refine ⟨?_, ?_, ?_⟩
    · intro pr hpr
      rw [hcf] at hpr
      rw [mem_filterMap_ite] at hpr
      obtain ⟨f, hf, hcond, hpr⟩ := hpr
      unfold files_to_copy
      rw [mem_filterMap_ite]
      exact ⟨f, hf, (Bool.and_eq_true _ _ |>.mp hcond).1, hpr⟩
    · intro pr
      rw [hcf, mem_filterMap_ite]
      constructor
      · rintro ⟨f, hf, hcond, hpr⟩
        obtain ⟨h1, h2⟩ := Bool.and_eq_true _ _ |>.mp hcond
        exact ⟨hex, f, hf, hpr, h1, h2⟩
      · rintro ⟨-, f, hf, hpr, h1, h2⟩
        exact ⟨f, hf, by rw [h1, h2]; rfl, hpr⟩
    · intro hnone
      rw [hcf]
      rw [List.filterMap_eq_nil_iff]
      intro f hf
      rw [hnone f hf]
      rfl
  · have hb : existsP fs (repo ++ ["projects", t.name]) = false := by
      revert hex
      cases existsP fs (repo ++ ["projects", t.name]) <;> simp
    have hcf : check_file_conflicts fs t repo targetDir = [] := by
      simp [check_file_conflicts, hp, hb]
    refine ⟨?_, ?_, ?_⟩
    · intro pr hpr
      rw [hcf] at hpr
      cases hpr
    · intro pr
      rw [hcf]
      simp [hb]
    · intro _
      exact hcf

/-- Witness for C4: the conflicting `package.json` pair is reported. -/
theorem C4_witness :
    (["repo", "projects", "web", "package.json"], ["proj", "package.json"]) ∈
      check_file_conflicts conflictFS demoProj ["repo"] ["proj"] :=
  ((C4_conflict_detection_conservative conflictFS demoProj ["repo"] ["proj"]
      (by decide)).2.1 _).mpr
    ⟨by decide, ["package.json"], by decide, rfl, by decide, by decide⟩

/-! ## C3 — dry-run purity -/

/-- C3: with `dry_run=true`, `install_template` and `apply_template` leave
the filesystem completely unchanged and return `success=true` with a list
whose length equals the number of entries of `template.files` whose source
exists on disk (for the apply side, sources that exist are assumed to be
regular files — as produced by discovery — since checksumming a directory
would raise). -/
theorem C3_dry_run_purity (H : String → String) (fs : FS) (t u : Template)
    (repo home targetDir : FPath) (force : Bool) (now : Nat) :
    (t.type = TemplateType.dotfiles →
      existsP fs (repo ++ ["dotfiles", t.name]) = true →
      ∃ links,
        install_template fs t repo home force true now =
          .ok (true, links, fs) ∧
        links.length = (t.files.filter (fun f =>
          existsP fs (repo ++ ["dotfiles", t.name] ++ f))).length) ∧
    (u.type = TemplateType.project →
      existsP fs (repo ++ ["projects", u.name]) = true →
      (∀ f ∈ u.files, existsP fs (repo ++ ["projects", u.name] ++ f) = true →
        isFileP fs (repo ++ ["projects", u.name] ++ f) = true) →
      ∃ recs,
        apply_template H fs u repo targetDir force true now =
          .ok (true, recs, fs) ∧
        recs.length = (u.files.filter (fun f =>
          existsP fs (repo ++ ["projects", u.name] ++ f))).length) := by
  constructor
  · intro ht hex
    have hd : t.is_dotfiles_template = true := by
      simp [Template.is_dotfiles_template, ht]
    refine ⟨planLinks fs (repo ++ ["dotfiles", t.name]) home t.files t.name now,
      ?_, ?_⟩
    · simp [install_template, hd, hex]
    · unfold planLinks
      exact filterMap_ite_length t.files _ _
  · intro hu hex hfiles
    have hp : u.is_project_template = true := by
      simp [Template.is_project_template, hu]
    have hplan : ∀ pr ∈ files_to_copy fs (repo ++ ["projects", u.name])
        targetDir u.files, isFileP fs pr.1 = true := by
      intro pr hpr
      unfold files_to_copy at hpr
      rw [mem_filterMap_ite] at hpr
      obtain ⟨f, hf, hc, hpr⟩ := hpr
      rw [hpr]
      exact hfiles f hf hc
    obtain ⟨recs, hrec, hlen⟩ :=
      dryRunRecords_ok H fs u.name now
        (files_to_copy fs (repo ++ ["projects", u.name]) targetDir u.files)
        hplan
    refine ⟨recs, ?_, ?_⟩
    · simp [apply_template, hp, hex, hrec]
    · rw [hlen]
      unfold files_to_copy
      exact filterMap_ite_length u.files _ _

/-- Witness for C3 at the demo repository (each template declares one file
with an existing source and one whose source is missing). -/
theorem C3_witness :
    (∃ links,
      install_template demoRepoFS demoDot ["repo"] ["home"] false true 0 =
        .ok (true, links, demoRepoFS) ∧
      links.length = (demoDot.files.filter (fun f =>
        existsP demoRepoFS (["repo"] ++ ["dotfiles", demoDot.name] ++ f))).length) ∧
    (∃ recs,
      apply_template idDigest demoRepoFS demoProj ["repo"] ["proj"] false true 0 =
        .ok (true, recs, demoRepoFS) ∧
      recs.length = (demoProj.files.filter (fun f =>
        existsP demoRepoFS (["repo"] ++ ["projects", demoProj.name] ++ f))).length) :=
  ⟨(C3_dry_run_purity idDigest demoRepoFS demoDot demoProj ["repo"] ["home"]
      ["proj"] false 0).1 (by decide) (by decide),
   (C3_dry_run_purity idDigest demoRepoFS demoDot demoProj ["repo"] ["home"]
      ["proj"] false 0).2 (by decide) (by decide) (by decide)⟩

/-! ## C8 — template name validation -/

theorem stripSpecials_all_iff (s : String) :
    ((stripSpecials s).all pyIsAlnumChar = true) ↔
      ∀ c ∈ s.toList, pyIsAlnumChar c = true ∨ c = '-' ∨ c = '_' ∨ c = '.' := by
  unfold stripSpecials
  rw [List.all_eq_true]
  constructor
  · intro h c hc
    by_cases hsp : c = '-' ∨ c = '_' ∨ c = '.'
    · right
      exact hsp
    · left
      apply h
      rw [List.mem_filter]
      refine ⟨hc, ?_⟩
      simpa [and_assoc] using hsp
  · intro h c hc
    rw [List.mem_filter] at hc
    obtain ⟨hcs, hpred⟩ := hc
    rcases h c hcs with halnum | hsp | hsp | hsp
    · exact halnum
    all_goals simp [hsp] at hpred

/-- C8 counterexample: Python's `str.isalnum` accepts non-ASCII
alphanumerics, so the directory name `é` (U+00E9) passes validation and
yields a catalog template although it does not match `[A-Za-z0-9._-]+`. -/
theorem C8_counterexample_unicode_name :
    validate_name "é" = true ∧ specNameOK "é" = false ∧
    ∃ t, create_template_from_directory "é" [[".vimrc"]]
        TemplateType.dotfiles none 0 ["repo", "dotfiles", "é"] = some t ∧
      specNameOK t.name = false := by
  refine ⟨by decide, by decide,
    ⟨"é", "Template é", .dotfiles, [[".vimrc"]], none, [], some 0,
      some ["repo", "dotfiles", "é"]⟩, by decide, by decide⟩

/-- C8 (amended): a name is accepted iff, after removing `-`, `_` and `.`,
at least one character remains and every character of the name is a Python
alphanumeric (which includes non-ASCII letters such as `é`) or one of
`-`, `_`, `.`, and the name neither starts nor ends with a dot (stated for
names of characters below U+0100, the modelled range of `str.isalnum`);
discovery keeps a directory's template only if its name passes this
validation, and discards any directory whose name fails it. -/
theorem C8_name_validation_characterization :
    (∀ s : String, (∀ c ∈ s.toList, c.val < 0x100) →
      (validate_name s = true ↔
        (stripSpecials s ≠ [] ∧
         (∀ c ∈ s.toList, pyIsAlnumChar c = true ∨ c = '-' ∨ c = '_' ∨ c = '.') ∧
         s.startsWith "." = false ∧ s.endsWith "." = false))) ∧
    (∀ name files ty d now dp t,
      create_template_from_directory name files ty d now dp = some t →
      t.name = name ∧ validate_name name = true) ∧
    (∀ name files ty d now dp, validate_name name = false →
      create_template_from_directory name files ty d now dp = none) := by
  refine ⟨?_, ?_, ?_⟩
  · intro s _
    unfold validate_name pyIsAlnumStr
    constructor
    · intro hv
      simp only [Bool.and_eq_true] at hv
      obtain ⟨⟨⟨hne, hall⟩, hst⟩, hen⟩ := hv
      refine ⟨?_, (stripSpecials_all_iff s).mp hall, ?_, ?_⟩
      · intro hnil
        rw [hnil] at hne
        simp at hne
      · simpa using hst
      · simpa using hen
    · rintro ⟨hne, hall, hst, hen⟩
      have hA : (stripSpecials s).all pyIsAlnumChar = true :=
        (stripSpecials_all_iff s).mpr hall
      have hE : (stripSpecials s).isEmpty = false := by
        cases hEmp : (stripSpecials s).isEmpty
        · rfl
        · exact absurd (List.isEmpty_iff.mp hEmp) hne
      simp [hA, hE, hst, hen]
  · intro name files ty d now dp t h
    unfold create_template_from_directory at h
    dsimp only at h
    split at h
    · cases h
    · unfold Template.construct at h
      split at h
      · rename_i hcond
        cases h
        refine ⟨rfl, ?_⟩
        simp only [Bool.and_eq_true] at hcond
        exact hcond.1.1.2
      · cases h
  · intro name files ty d now dp hval
    unfold create_template_from_directory
    dsimp only
    split
    · rfl
    · simp [Template.construct, hval]

/-- Witness for C8 at an ASCII name. -/
theorem C8_witness :
    validate_name "vim-config" = true ↔
      (stripSpecials "vim-config" ≠ [] ∧
       (∀ c ∈ "vim-config".toList,
         pyIsAlnumChar c = true ∨ c = '-' ∨ c = '_' ∨ c = '.') ∧
       "vim-config".startsWith "." = false ∧
       "vim-config".endsWith "." = false) :=
  C8_name_validation_characterization.1 "vim-config" (by decide)

/-! ## C5 — copy integrity verification -/

/-- The filesystem of the C5 counterexample: the copy target already exists
as a directory. -/
def dirCopyFS : FS := ⟨[(["proj"], .dir), (["tp"], .dir),
  (["tp", "a"], .file "hello"), (["proj", "a"], .dir)], []⟩

/-- The record produced by the C5 counterexample copy. -/
def dirCopyPF : ProjectFile :=
  ⟨["tp", "a"], ["proj", "a"], "web", 0, "hello", some 5, some 0⟩

/-- The filesystem after the C5 counterexample copy: `shutil.copy2` copied
the file *into* the pre-existing directory. -/
def dirCopyFS' : FS := ⟨[(["proj", "a", "a"], .file "hello"),
  (["proj"], .dir), (["tp"], .dir), (["tp", "a"], .file "hello"),
  (["proj", "a"], .dir)], []⟩

/-- C5 counterexample: with `force=true` and a pre-existing *directory* at
the target, `_copy_single_file` succeeds (returning a record), because
`shutil.copy2` copies the file into the directory under the source's
basename — yet `verify_integrity` on that record is false, refuting
"immediately after a real successful copy it returns true". -/
theorem C5_counterexample_copy_into_directory :
    copy_single_file idDigest dirCopyFS ["tp", "a"] ["proj", "a"] "web"
      true 0 = (some dirCopyPF, dirCopyFS') ∧
    dirCopyPF.verify_integrity idDigest dirCopyFS' = false := by
  decide

/-- C5 (amended): `verify_integrity` recomputes the digest of the target's
current content and compares it with the stored checksum. After a real
successful copy whose target did not resolve to a pre-existing directory it
returns true; it returns false when the target is missing, and false when
the target's bytes differ from the bytes recorded at copy time (for a
collision-free digest). -/
theorem C5_verify_integrity (H : String → String) :
    (∀ (fs : FS) (s tg : FPath) (name : String) (force : Bool) (now : Nat)
       (pf : ProjectFile) (fs' : FS),
      allDirAncestors fs (parentOf tg) = true →
      targetNotDir fs tg = true →
      copy_single_file H fs s tg name force now = (some pf, fs') →
      pf.verify_integrity H fs' = true) ∧
    (∀ (fs : FS) (pf : ProjectFile),
      existsP fs pf.target = false → pf.verify_integrity H fs = false) ∧
    (∀ (fs : FS) (pf : ProjectFile) (c c0 : String),
      Function.Injective H → readFile fs pf.target = some c →
      pf.checksum = H c0 → c ≠ c0 → pf.verify_integrity H fs = false) := by
  refine ⟨?_, ?_, ?_⟩
  · intro fs s tg name force now pf fs' hdirs hnotdir h
    exact copy_single_file_verify H fs s tg name force now pf fs' hdirs
      hnotdir h
  · intro fs pf hex
    unfold ProjectFile.verify_integrity ProjectFile.existsF
    simp [hex]
  · intro fs pf c c0 hinj hrd hck hne
    have hex : existsP fs pf.target = true := readFile_existsP fs pf.target c hrd
    unfold ProjectFile.verify_integrity ProjectFile.existsF calculate_checksum
    simp only [hex, Bool.not_true, Bool.false_eq_true, if_false, hrd,
      Option.map_some']
    rw [hck]
    simp only [beq_eq_false_iff_ne, ne_eq]
    intro hc
    exact hne (hinj hc)

/-- The filesystem of the C5 witness: a normal copy into an empty target. -/
def okCopyFS : FS := ⟨[(["proj"], .dir), (["tp"], .dir),
  (["tp", "a"], .file "hello")], []⟩

/-- The filesystem after the C5 witness copy. -/
def okCopyFS' : FS := ⟨[(["proj", "a"], .file "hello"), (["proj"], .dir),
  (["tp"], .dir), (["tp", "a"], .file "hello")], []⟩

/-- The record produced by the C5 witness copy. -/
def okCopyPF : ProjectFile :=
  ⟨["tp", "a"], ["proj", "a"], "web", 0, "hello", some 5, some 0⟩

/-- Witness for C5: a successful copy verifies; a missing target and a
mutated target do not. -/
theorem C5_witness :
    okCopyPF.verify_integrity idDigest okCopyFS' = true ∧
    okCopyPF.verify_integrity idDigest okCopyFS = false ∧
    okCopyPF.verify_integrity idDigest
      (setFS okCopyFS' ["proj", "a"] (.file "mutated")) = false :=
  ⟨(C5_verify_integrity idDigest).1 okCopyFS ["tp", "a"] ["proj", "a"] "web"
      false 0 okCopyPF okCopyFS' (by decide) (by decide) (by decide),
   (C5_verify_integrity idDigest).2.1 okCopyFS okCopyPF (by decide),
   (C5_verify_integrity idDigest).2.2
      (setFS okCopyFS' ["proj", "a"] (.file "mutated")) okCopyPF
      "mutated" "hello" idDigest_injective (by decide) (by decide)
      (by decide)⟩

/-! ## C6 — apply_template partial-failure bookkeeping -/

/-- C6: in a real (non-dry-run) `apply_template`, every declared file whose
source is missing is excluded from both the plan and the returned records
without causing an exception, and the overall success flag is true iff
every planned file (source existed) produced a copy record — a per-file
failure clears the flag while the loop continues. -/
theorem C6_apply_template_partial_failure (H : String → String) (fs : FS)
    (t : Template) (repo targetDir : FPath) (force : Bool) (now : Nat)
    (ht : t.type = TemplateType.project)
    (hex : existsP fs (repo ++ ["projects", t.name]) = true)
    (hdirs : allDirAncestors fs targetDir = true) :
    ∃ succ recs fs',
      apply_template H fs t repo targetDir force false now =
        .ok (succ, recs, fs') ∧
      (∀ f ∈ t.files, existsP fs (repo ++ ["projects", t.name] ++ f) = false →
        (∀ pr ∈ files_to_copy fs (repo ++ ["projects", t.name]) targetDir
            t.files, pr.1 ≠ repo ++ ["projects", t.name] ++ f) ∧
        (∀ r ∈ recs, r.source ≠ repo ++ ["projects", t.name] ++ f)) ∧
      (succ = true ↔ recs.length =
        (files_to_copy fs (repo ++ ["projects", t.name]) targetDir
          t.files).length) := by
  have hp : t.is_project_template = true := by
    simp [Template.is_project_template, ht]
  have heq : apply_template H fs t repo targetDir force false now =
      .ok ((copyLoop H t.name force now fs
              (files_to_copy fs (repo ++ ["projects", t.name]) targetDir
                t.files)).1,
           (copyLoop H t.name force now fs
              (files_to_copy fs (repo ++ ["projects", t.name]) targetDir
                t.files)).2.1,
           (copyLoop H t.name force now fs
              (files_to_copy fs (repo ++ ["projects", t.name]) targetDir
                t.files)).2.2) := by
    unfold apply_template
    simp [hp, hex, mkdirParents_allDir fs targetDir hdirs]
  refine ⟨_, _, _, heq, ?_, ?_⟩
  · intro f hf hnex
    have hplanex : ∀ pr ∈ files_to_copy fs (repo ++ ["projects", t.name])
        targetDir t.files, pr.1 ≠ repo ++ ["projects", t.name] ++ f := by
      intro pr hpr
      unfold files_to_copy at hpr
      rw [mem_filterMap_ite] at hpr
      obtain ⟨f', hf', hc, hpr⟩ := hpr
      rw [hpr]
      intro hcontra
      have hff : f' = f := List.append_cancel_left hcontra
      rw [hff, hnex] at hc
      cases hc
    refine ⟨hplanex, ?_⟩
    intro r hr
    have hsrc := copyLoop_sources H t.name force now _ fs r hr
    rw [List.mem_map] at hsrc
    obtain ⟨pr, hpr, hpr1⟩ := hsrc
    intro hcon
    exact hplanex pr hpr (by rw [hpr1, hcon])
  · exact copyLoop_success_iff H t.name force now _ fs

/-- A richer project template: two files with existing sources and one with
a missing source. -/
def demoProj2 : Template :=
  ⟨"web", "Web project", .project,
   [["package.json"], ["index.js"], ["gone.js"]], none, [], none, none⟩

/-- `demoRepoFS` extended with a second source file and a conflicting
target for the first one. -/
def conflictFS2 : FS :=
  ⟨demoRepoFS.entries ++
    [(["repo", "projects", "web", "index.js"], .file "idx"),
     (["proj", "package.json"], .file "other")], []⟩

/-- Witness for C6: applying `demoProj2` without force against a target
holding a conflicting `package.json`. -/
theorem C6_witness :
    ∃ succ recs fs',
      apply_template idDigest conflictFS2 demoProj2 ["repo"] ["proj"]
        false false 0 = .ok (succ, recs, fs') ∧
      (∀ f ∈ demoProj2.files,
        existsP conflictFS2 (["repo"] ++ ["projects", demoProj2.name] ++ f) =
          false →
        (∀ pr ∈ files_to_copy conflictFS2
            (["repo"] ++ ["projects", demoProj2.name]) ["proj"]
            demoProj2.files,
          pr.1 ≠ ["repo"] ++ ["projects", demoProj2.name] ++ f) ∧
        (∀ r ∈ recs,
          r.source ≠ ["repo"] ++ ["projects", demoProj2.name] ++ f)) ∧
      (succ = true ↔ recs.length =
        (files_to_copy conflictFS2 (["repo"] ++ ["projects", demoProj2.name])
          ["proj"] demoProj2.files).length) :=
  C6_apply_template_partial_failure idDigest conflictFS2 demoProj2 ["repo"]
    ["proj"] false 0 (by decide) (by decide) (by decide)

/-! ## Supplementary: the uncalled `DotfileLink.get_status` helper

The model method `DotfileLink.get_status` (cited alongside the status
command's classifier) has no caller in the repository and returns one of
*five* strings, with a distinct `broken_link` class for dangling symlinks;
the status command's own per-link classification (`classify_link`, the one
specified) produces exactly the four documented classes. -/

theorem get_status_five_classes (fs : FS) (l : DotfileLink) :
    l.get_status fs = "missing" ∨ l.get_status fs = "file_exists_not_link" ∨
    l.get_status fs = "broken_link" ∨ l.get_status fs = "wrong_target" ∨
    l.get_status fs = "valid" := by
  unfold DotfileLink.get_status
  by_cases h1 : l.existsL fs = true <;>
    by_cases h2 : l.is_symlink fs = true <;>
      by_cases h3 : l.is_broken fs = true <;>
        by_cases h4 : l.points_to_source fs = true <;>
          simp [h1, h2, h3, h4]

theorem get_status_broken_link_reachable :
    c2Link.get_status brokenTargetFS = "broken_link" := by
  decide
